import Mathlib

/-!
Verification of the pymodaq_plugins_MozzaSpectro backend.

Shallow embedding of the two hardware modules:
  * `spectro.py`  — the abstract `Spectro` interface, in particular the
    concrete orchestration method `make_acquisition`;
  * `Mozza.py`    — the Mozza device backend: serial parsing, table load
    retry, raw reads, trigger-delay caching, amplitude correction and the
    acquisition cleanup path.

Vendor-SDK calls (`MozzaUSB`) are opaque external collaborators; each is
modelled as an oracle parameter (a boolean success flag or a result
function) supplied to the embedded operation, so theorems quantify over
every possible SDK behaviour.  Python integers are `Int`, byte counts are
`Nat`, float arithmetic in `read_raw` is modelled over `ℚ`.
-/

/-! ## spectro.py: `Spectro.make_acquisition` (lines 80-101) -/

/-- The part of the `Spectro` state that `make_acquisition` reads or
writes: the `_connected` flag, `_npixels`, and the stored `acquisition`
window (`Acquisition(None, None)` before the first call, hence an
`Option`).  The delegated `_acquire_spectrum` result (`_spectrum`) is an
abstract method of the interface and is modelled separately with the
Mozza backend. -/
structure SpectroState where
  connected : Bool
  npixels : Int
  acquisition : Option (Int × Int)
deriving DecidableEq, Repr

/-- `True` exactly on the `.error` constructor. -/
def exceptIsError {ε α : Type} : Except ε α → Bool
  | .error _ => true
  | .ok _ => false

/-- `Spectro.make_acquisition(start, stop)` (spectro.py lines 80-101):
returns the updated state, or `.error` for a raised `ValueError`.

```text
if not self.connected: return
if stop < 0: stop += self._npixels
if stop < 1 or stop >= self._npixels: raise ValueError(...)
if start < 0: start += self._npixels
if start < 0 or start >= stop: raise ValueError(...)
self.acquisition = Acquisition(start, stop)
```
(the final delegation `self._spectrum = self._acquire_spectrum(...)` is
the abstract backend call, modelled by `acquire_spectrum` below). -/
def make_acquisition (s : SpectroState) (start stop : Int) :
    Except String SpectroState :=
  if ¬ s.connected then .ok s
  else
    let stop2 := if stop < 0 then stop + s.npixels else stop
    if stop2 < 1 ∨ s.npixels ≤ stop2 then
      .error "stop index is not in range"
    else
      let start2 := if start < 0 then start + s.npixels else start
      if start2 < 0 ∨ stop2 ≤ start2 then
        .error "start index should be >=0 and < stop index"
      else
        .ok { s with acquisition := some (start2, stop2) }

/-- Resolution of a possibly-negative index against `npixels`
(Python-slice convention, spectro.py lines 90-91 and 95-96). -/
def resolveIndex (npixels i : Int) : Int :=
  if i < 0 then i + npixels else i

example :
    make_acquisition ⟨true, 10, none⟩ (-3) (-1) =
      .ok ⟨true, 10, some (7, 9)⟩ := by rfl

example :
    exceptIsError (make_acquisition ⟨true, 10, none⟩ 5 5) = true := by rfl

example : make_acquisition ⟨false, 10, none⟩ 99 99 = .ok ⟨false, 10, none⟩ := by
  rfl

/-- **C1.** `make_acquisition(start, stop, background_mode)`: a call on a
disconnected device returns without raising and without modifying state;
otherwise negative indices are resolved by adding `npixels`, a
`ValueError` is raised exactly when the resolved window violates
`0 ≤ start < stop < npixels`, and when no error is raised the resolved
window is stored as the current acquisition. -/
theorem C1_make_acquisition_spec (s : SpectroState) (start stop : Int) :
    (s.connected = false → make_acquisition s start stop = .ok s) ∧
    (s.connected = true →
      (exceptIsError (make_acquisition s start stop) = true ↔
        ¬(0 ≤ resolveIndex s.npixels start ∧
          resolveIndex s.npixels start < resolveIndex s.npixels stop ∧
          resolveIndex s.npixels stop < s.npixels)) ∧
      ((0 ≤ resolveIndex s.npixels start ∧
          resolveIndex s.npixels start < resolveIndex s.npixels stop ∧
          resolveIndex s.npixels stop < s.npixels) →
        make_acquisition s start stop =
          .ok { s with
                 acquisition :=
                   some (resolveIndex s.npixels start,
                         resolveIndex s.npixels stop) })) := by
  constructor
  · intro h
    simp [make_acquisition, h]
  · intro h
    constructor
    · simp only [make_acquisition, resolveIndex, h, not_true_eq_false,
        Bool.false_eq_true, if_false]
      split_ifs <;> simp [exceptIsError] <;> omega
    · intro hw
      simp only [make_acquisition, resolveIndex, h, not_true_eq_false,
        Bool.false_eq_true, if_false] at *
      split_ifs <;> first | rfl | omega

/-- Witness for C1 at a concrete connected state with negative indices:
`make_acquisition(-3, -1)` on a 10-pixel device resolves to window
`(7, 9)` and stores it. -/
theorem C1_make_acquisition_spec_witness :
    make_acquisition ⟨true, 10, none⟩ (-3) (-1) =
      .ok ⟨true, 10, some (7, 9)⟩ :=
  (C1_make_acquisition_spec ⟨true, 10, none⟩ (-3) (-1)).2 rfl |>.2
    (by decide)

/-! ## Mozza.py: `MozzaSpectro.connect_device` serial parsing (lines 43-54) -/

/-- Python `str.split(sep)` for a one-character separator: splits at every
occurrence, keeping empty fields (`'a#'.split('#') == ['a', '']`). -/
def splitOnChar (sep : Char) : List Char → List (List Char)
  | [] => [[]]
  | c :: rest =>
    let r := splitOnChar sep rest
    if c = sep then [] :: r
    else
      match r with
      | [] => [[c]]
      | h :: t => (c :: h) :: t

/-- Decimal digit run to a natural number; `none` when empty or when a
non-digit occurs. -/
def digitRun? (l : List Char) : Option Nat :=
  if l = [] ∨ ¬ l.all (·.isDigit) then none
  else some (l.foldl (fun n c => 10 * n + (c.toNat - 48)) 0)

/-- Python `int(s)` on a string (as a char list): optional surrounding
whitespace, optional sign, then a nonempty decimal digit run; `none`
where CPython raises `ValueError`.  (CPython additionally allows single
underscores between digits; no serial string in this repository uses
them.) -/
def pyInt (l : List Char) : Option Int :=
  let t := ((l.dropWhile (·.isWhitespace)).reverse.dropWhile
            (·.isWhitespace)).reverse
  match t with
  | '-' :: rest => (digitRun? rest).map (fun n => -(n : Int))
  | '+' :: rest => (digitRun? rest).map (fun n => (n : Int))
  | rest => (digitRun? rest).map (fun n => (n : Int))

/-- Connection state touched by `connect_device`: the `_connected` flag and
`_serial` string (spectro.py lines 32-33). -/
structure ConnState where
  connected : Bool
  serial : String
deriving DecidableEq, Repr

/-- How a `connect_device` call terminates: a raised `SpectroError`, a
raised (uncaught) `ValueError`, or normal completion; each carries the
resulting connection state. -/
inductive ConnectResult
  | spectroErr (s : ConnState)
  | valueErr (s : ConnState)
  | ok (s : ConnState)
deriving DecidableEq, Repr

/-- `MozzaSpectro.connect_device(serial)` (Mozza.py lines 43-74).

```text
try: serial_num = int(serial.split('#')[1])
except (IndexError, TypeError): raise SpectroError(...)
try: self.device.connect(serial_num)
except MozzaError as e: raise SpectroError(e)
try: self.device.get_sensors()
except MozzaError:
    try: self.device.reset_all()
    except MozzaError as e: raise SpectroError(e)
... self._connected = True; self._serial = serial ...
```

`int('abc')` raises `ValueError`, which is NOT in the caught tuple
`(IndexError, TypeError)` and therefore propagates uncaught.  SDK calls
are the oracles `connectOk` / `sensorsOk` / `resetOk`; the remaining
initialization (axis arrays, `set_default_params`,
`load_amp_correction`, modelled separately) is abstracted into the `ok`
state update `connected := true, serial := serial`. -/
def connect_device (serial : String) (connectOk sensorsOk resetOk : Bool)
    (st : ConnState) : ConnectResult :=
  match (splitOnChar '#' serial.toList).get? 1 with
  | none => .spectroErr st
  | some tail =>
    match pyInt tail with
    | none => .valueErr st
    | some _num =>
      if ¬ connectOk then .spectroErr st
      else if ¬ sensorsOk ∧ ¬ resetOk then .spectroErr st
      else .ok { st with connected := true, serial := serial }

/-- Spec-side predicate, written from the spec's words: a serial string
"of the form `Mozza#<int>`" — the literal text `Mozza#` followed by an
integer literal (optional minus sign, nonempty digit run). -/
def isMozzaForm (s : String) : Bool :=
  decide (s.toList.take 6 = "Mozza#".toList) &&
    (match s.toList.drop 6 with
     | '-' :: rest => ¬ rest.isEmpty && rest.all (·.isDigit)
     | rest => ¬ rest.isEmpty && rest.all (·.isDigit))

/-- **C6 counterexample.** `"Mozza#abc"` is not of the form
`Mozza#<int>`, yet `connect_device` raises `ValueError` (from `int()`)
rather than `SpectroError`: `ValueError` is absent from the caught tuple
`(IndexError, TypeError)`. -/
theorem C6_counterexample :
    isMozzaForm "Mozza#abc" = false ∧
    connect_device "Mozza#abc" true true true ⟨false, ""⟩ =
      .valueErr ⟨false, ""⟩ := by
  constructor
  · rfl
  · rfl

/-- **C6 (amended).** `connect_device` raises `SpectroError` with
connection state untouched exactly for the caught exceptions: a serial
string whose `'#'`-split has no second field (`IndexError`).  A second
field that `int()` cannot parse raises an uncaught `ValueError` —
not `SpectroError` — also with state untouched.  The `Mozza` prefix is
never validated: any string whose second `'#'`-field parses as an
integer proceeds to the SDK connect (and succeeds when the SDK does). -/
theorem C6_connect_device_parse (serial : String)
    (connectOk sensorsOk resetOk : Bool) (st : ConnState) :
    ((splitOnChar '#' serial.toList)[1]? = none →
      connect_device serial connectOk sensorsOk resetOk st =
        .spectroErr st) ∧
    (∀ tail, (splitOnChar '#' serial.toList)[1]? = some tail →
      pyInt tail = none →
      connect_device serial connectOk sensorsOk resetOk st =
        .valueErr st) ∧
    (∀ tail n, (splitOnChar '#' serial.toList)[1]? = some tail →
      pyInt tail = some n →
      connect_device serial true true resetOk st =
        .ok { st with connected := true, serial := serial }) := by
  refine ⟨fun h => ?_, fun tail h1 h2 => ?_, fun tail n h1 h2 => ?_⟩
  · simp only [String.toList] at h
    simp [connect_device, h]
  · simp only [String.toList] at h1
    simp [connect_device, h1, h2]
  · simp only [String.toList] at h1
    simp [connect_device, h1, h2]

/-- Witness for C6 (amended) at concrete inputs: `"Mozza"` (no `'#'`)
raises `SpectroError`; `"Mozza#"` (empty second field) raises
`ValueError`; `"Foo#12"` (wrong prefix, integer field) connects. -/
theorem C6_connect_device_parse_witness :
    connect_device "Mozza" true true true ⟨false, ""⟩ =
      .spectroErr ⟨false, ""⟩ ∧
    connect_device "Mozza#" true true true ⟨false, ""⟩ =
      .valueErr ⟨false, ""⟩ ∧
    connect_device "Foo#12" true true true ⟨false, ""⟩ =
      .ok ⟨true, "Foo#12"⟩ :=
  ⟨(C6_connect_device_parse "Mozza" true true true ⟨false, ""⟩).1 (by rfl),
   (C6_connect_device_parse "Mozza#" true true true ⟨false, ""⟩).2.1
     [] (by rfl) (by rfl),
   (C6_connect_device_parse "Foo#12" true true true ⟨false, ""⟩).2.2
     ['1', '2'] 12 (by rfl) (by rfl)⟩

/-! ## Mozza.py: `MozzaSpectro.set_ext_trigger` (lines 87-102) -/

/-- Trigger state touched by `set_ext_trigger`: the device parameter
block's trigger source and delay, and the backend's cached delay
`_trigger_delay_us` (Mozza.py line 24).  The optional `apply` step
(committing the parameter block to the SDK under the lock) writes no
field modelled here and is omitted. -/
structure TrigState where
  ext_source : Bool
  device_delay_us : Int
  cached_delay_us : Int
deriving DecidableEq, Repr

/-- `MozzaSpectro.set_ext_trigger(flag, update_delay=...)` (Mozza.py
lines 87-95):

```text
self.device.acquisition_params.trigger_source = EXTERNAL if flag else INTERNAL
if update_delay:
    if trigger_source == INTERNAL:
        self._trigger_delay_us = ...trigger_delay_us
        ...trigger_delay_us = 0
    else:
        ...trigger_delay_us = int(self._trigger_delay_us)
```
(`int()` on the cached value is the identity here since delays are
modelled as integers). -/
def set_ext_trigger (flag update_delay : Bool) (s : TrigState) : TrigState :=
  let s1 := { s with ext_source := flag }
  if update_delay then
    if ¬ s1.ext_source then
      { s1 with cached_delay_us := s1.device_delay_us, device_delay_us := 0 }
    else
      { s1 with device_delay_us := s1.cached_delay_us }
  else s1

/-- **C8.** Switching to internal trigger with `update_delay=True` caches
the device's current trigger delay and zeroes the device delay; switching
back to external with `update_delay=True` restores the device delay to
the cached value. -/
theorem C8_trigger_delay_cache (s : TrigState) :
    (set_ext_trigger false true s).cached_delay_us = s.device_delay_us ∧
    (set_ext_trigger false true s).device_delay_us = 0 ∧
    (set_ext_trigger true true (set_ext_trigger false true s)).device_delay_us
      = s.device_delay_us ∧
    (set_ext_trigger true true (set_ext_trigger false true s)).ext_source
      = true := by
  simp [set_ext_trigger]

/-! ## Mozza.py: `MozzaSpectro.load_amp_correction` (lines 294-317) -/

/-- Outcome of `np.loadtxt(path, unpack=True)` on the per-serial
amplitude-correction file.  `missing` is an `OSError` (file absent);
`malformed` is any other exception raised while parsing — `np.loadtxt`
raises `ValueError` on non-numeric or non-rectangular content — which
the source's `except OSError` does NOT catch; `parsed` yields the two
columns (amplitudes as integers: only their sign and count matter to
the backend's checks). -/
inductive AmpFile
  | missing
  | malformed
  | parsed (wavelength amplitude : List Int)
deriving DecidableEq, Repr

/-- Amplitude-correction state (Mozza.py `__init__` lines 30-32):
the `apply_amp_correction` flag and `correct_amplitude`, stored here as
the column data the interpolation closure captures (the source builds
`lambda x: np.interp(x, 1e7/wavelength[::-1], amplitude[::-1])`; the
claims depend only on the closure's presence and its data). -/
structure AmpState where
  apply_amp_correction : Bool
  correct_amplitude : Option (List Int × List Int)
deriving DecidableEq, Repr

/-- `MozzaSpectro.__init__` (Mozza.py lines 30-32): correction disabled,
no correction function. -/
def init_amp_state : AmpState :=
  { apply_amp_correction := false, correct_amplitude := none }

/-- How a `load_amp_correction` call terminates: a normal `return b`, or
a propagated exception. -/
inductive AmpRet
  | returns (b : Bool)
  | raises
deriving DecidableEq, Repr

/-- `MozzaSpectro.load_amp_correction(serial_num)` (Mozza.py 294-317):

```text
self.correct_amplitude = None
try: wavelength, amplitude = np.loadtxt(path, unpack=True)
except OSError:
    self.apply_amp_correction = False; return False
else:
    if np.any(amplitude < 0):
        self.apply_amp_correction = False; return False
    elif len(amplitude) != len(wavelength):
        self.apply_amp_correction = False; return False
    else:
        self.correct_amplitude = lambda x: np.interp(...); return True
```
A `malformed` load raises outside the `except OSError` clause, after the
line-295 reset of `correct_amplitude` and before any other write. -/
def load_amp_correction (file : AmpFile) (s : AmpState) : AmpRet × AmpState :=
  let s0 := { s with correct_amplitude := none }
  match file with
  | .missing => (.returns false, { s0 with apply_amp_correction := false })
  | .malformed => (.raises, s0)
  | .parsed wavelength amplitude =>
    if amplitude.any (· < 0) then
      (.returns false, { s0 with apply_amp_correction := false })
    else if amplitude.length ≠ wavelength.length then
      (.returns false, { s0 with apply_amp_correction := false })
    else
      (.returns true,
       { s0 with correct_amplitude := some (wavelength, amplitude) })

/-- **C3 counterexample.** A correction file whose content `np.loadtxt`
cannot parse (e.g. a line of non-numeric text) raises a `ValueError`
that the `except OSError` clause does not catch, so
`load_amp_correction` propagates an exception — contradicting the
claim that it never raises for any file content. -/
theorem C3_counterexample :
    (load_amp_correction .malformed init_amp_state).1 = .raises := by rfl

/-- **C3 (amended).** A missing file, a negative amplitude, or a length
mismatch leaves `apply_amp_correction = False` and
`correct_amplitude = None` and returns `False` without raising; for
parsed data the call never raises, and the correction is installed
(return `True`, `correct_amplitude` set) exactly when the two columns
have equal length and every amplitude is ≥ 0.  File content that fails
to parse as two numeric columns, however, propagates the parse
exception (only `OSError` is caught). -/
theorem C3_load_amp_correction_spec (wl amp : List Int) (s : AmpState) :
    (load_amp_correction .missing s =
      (.returns false, ⟨false, none⟩)) ∧
    ((load_amp_correction (.parsed wl amp) s).1 ≠ .raises) ∧
    ((load_amp_correction (.parsed wl amp) s).1 = .returns true ↔
      amp.length = wl.length ∧ amp.all (0 ≤ ·) = true) ∧
    ((amp.length = wl.length ∧ amp.all (0 ≤ ·) = true) →
      load_amp_correction (.parsed wl amp) s =
        (.returns true, { s with correct_amplitude := some (wl, amp) })) ∧
    (¬(amp.length = wl.length ∧ amp.all (0 ≤ ·) = true) →
      load_amp_correction (.parsed wl amp) s =
        (.returns false, ⟨false, none⟩)) := by
  have hax : amp.any (· < 0) = !amp.all (0 ≤ ·) := by
    induction amp with
    | nil => rfl
    | cons a t ih =>
      simp only [List.any_cons, List.all_cons, ih, Bool.not_and]
      congr 1
      rcases h : decide (a < 0) <;> simp_all
  refine ⟨rfl, ?_, ?_, ?_, ?_⟩ <;>
    simp only [load_amp_correction, hax] <;>
    rcases hall : amp.all (0 ≤ ·) <;>
    rcases hlen : decide (amp.length = wl.length) <;>
    simp_all

/-- Witness for C3 (amended) at concrete data: equal-length, nonnegative
columns install the correction and return `True`; a negative amplitude
disables it. -/
theorem C3_load_amp_correction_spec_witness :
    load_amp_correction (.parsed [1600, 1650] [3, 4]) init_amp_state =
      (.returns true, ⟨false, some ([1600, 1650], [3, 4])⟩) ∧
    load_amp_correction (.parsed [1600, 1650] [3, -4]) init_amp_state =
      (.returns false, ⟨false, none⟩) :=
  ⟨(C3_load_amp_correction_spec [1600, 1650] [3, 4] init_amp_state).2.2.2.1
     (by decide),
   (C3_load_amp_correction_spec [1600, 1650] [3, -4] init_amp_state).2.2.2.2
     (by decide)⟩

/-- **C10.** No backend operation enables amplitude correction:
`__init__` starts with `apply_amp_correction = False`, and
`load_amp_correction` — the only backend writer of the flag — either
leaves it unchanged (successful install, or the uncaught parse-error
path) or sets it to `False`; it never sets it to `True`.  Enabling the
correction therefore requires an external assignment by the caller. -/
theorem C10_apply_flag_never_enabled (file : AmpFile) (s : AmpState) :
    init_amp_state.apply_amp_correction = false ∧
    ((load_amp_correction file s).2.apply_amp_correction = true →
      s.apply_amp_correction = true) := by
  refine ⟨rfl, ?_⟩
  rcases file with _ | _ | ⟨wl, amp⟩ <;>
    simp only [load_amp_correction] <;>
    first
      | (split_ifs <;> intro h <;> simp_all)
      | (intro h; simp_all)

/-- Witness for C10: the successful-install path on a state whose flag a
caller already set leaves the flag `true` — the hypothesis of the
implication is satisfiable and the theorem applies there. -/
theorem C10_apply_flag_never_enabled_witness :
    init_amp_state.apply_amp_correction = false ∧
    (⟨true, none⟩ : AmpState).apply_amp_correction = true :=
  ⟨(C10_apply_flag_never_enabled .missing init_amp_state).1,
   (C10_apply_flag_never_enabled (.parsed [5] [7]) ⟨true, none⟩).2 (by rfl)⟩

/-! ## Mozza.py: `MozzaSpectro.load_table` (lines 107-135) -/

/-- How a `load_table` call terminates.  `ok` is a normal return;
`spectroErr` is a raised `SpectroError`; `diverge` marks exhausted fuel —
in Python the corresponding behaviour is unbounded recursion of
`load_table` inside its own `except` handler (ending in a
`RecursionError`), since every failed write starts a fresh retry. -/
inductive LoadResult
  | ok
  | spectroErr
  | diverge
deriving DecidableEq, Repr

/-- `MozzaSpectro.load_table(start, stop, wnums)`, write/retry core
(Mozza.py lines 118-132):

```text
with self._lock:
    try: self.device.set_wavenumber_array(wnums)
    except MozzaError as e:
        try:
            self.device.end_acquisition()
            self.load_table(start, stop, wnums)   # recursive retry
        except MozzaError:
            raise SpectroError(...)
        else:
            return                                 # skip own realloc
self.buffer = np.zeros(self.device.get_raw_data_size(...), dtype=np.uint8)
```

`writeOk k` / `endOk k` are SDK oracles for the k-th
`set_wavenumber_array` / `end_acquisition` call; `payload` is the
SDK-reported `get_raw_data_size(table_length)`; `buf0` the byte size of
the buffer before the call.  Returns the termination kind, the final
buffer size, and the number of write attempts made.  A `SpectroError`
raised by a deeper retry is not a `MozzaError`, so the enclosing
`except MozzaError` does not catch it and it propagates unchanged. -/
def load_table_writes (writeOk endOk : Nat → Bool) (payload buf0 : Nat) :
    Nat → Nat → LoadResult × Nat × Nat
  | 0, k => (.diverge, buf0, k)
  | fuel + 1, k =>
    if writeOk k then (.ok, payload, k + 1)
    else if endOk k then
      load_table_writes writeOk endOk payload buf0 fuel (k + 1)
    else (.spectroErr, buf0, k + 1)

/-- `MozzaSpectro.load_table` entry: first write is attempt 0. -/
def load_table (writeOk endOk : Nat → Bool) (payload buf0 fuel : Nat) :
    LoadResult × Nat × Nat :=
  load_table_writes writeOk endOk payload buf0 fuel 0

/-- **C2 counterexample.** An SDK on which `set_wavenumber_array` fails
exactly twice and then succeeds (with `end_acquisition` always
succeeding): the claim demands a `SpectroError` after the single retry
fails, with no buffer reallocation; the code instead retries a third
time inside the handler's recursive `load_table` call, succeeds, and
reallocates the buffer (here from 7 to 100 bytes) — three write
attempts, no error. -/
theorem C2_counterexample :
    load_table (fun k => decide (2 ≤ k)) (fun _ => true) 100 7 10 =
      (.ok, 100, 3) := by decide

/-- Helper for the C2 induction: when the first `n` write attempts from
offset `k` fail with `end_acquisition` succeeding, the loop reaches
attempt `k + n` with `n + 1` fewer units of fuel. -/
theorem load_table_writes_run (writeOk endOk : Nat → Bool)
    (payload buf0 : Nat) :
    ∀ (n fuel k : Nat), n < fuel →
      (∀ j, j < n → writeOk (k + j) = false ∧ endOk (k + j) = true) →
      load_table_writes writeOk endOk payload buf0 fuel k =
        (if writeOk (k + n) then (.ok, payload, k + n + 1)
         else if endOk (k + n) then
           load_table_writes writeOk endOk payload buf0 (fuel - n - 1)
             (k + n + 1)
         else (.spectroErr, buf0, k + n + 1)) := by
  intro n
  induction n with
  | zero =>
    intro fuel k hf _
    match fuel, hf with
    | f + 1, _ => simp [load_table_writes]
  | succ m ih =>
    intro fuel k hf hkfail
    match fuel, hf with
    | f + 1, hf =>
      have h0 := hkfail 0 (by omega)
      rw [Nat.add_zero] at h0
      rw [show load_table_writes writeOk endOk payload buf0 (f + 1) k =
            load_table_writes writeOk endOk payload buf0 f (k + 1) from by
        simp [load_table_writes, h0.1, h0.2]]
      rw [ih f (k + 1) (by omega) (fun j hj => by
        have h := hkfail (j + 1) (by omega)
        rwa [show k + (j + 1) = k + 1 + j by omega] at h)]
      rw [show k + 1 + m = k + (m + 1) by omega,
        show f - m - 1 = f + 1 - (m + 1) - 1 by omega]

/-- Helper: when every write fails and every `end_acquisition` succeeds,
the handler's recursive retry never stops consuming fuel — the Python
original recurses unboundedly (until `RecursionError`). -/
theorem load_table_writes_diverge (writeOk endOk : Nat → Bool)
    (payload buf0 : Nat)
    (hall : ∀ j, writeOk j = false ∧ endOk j = true) :
    ∀ fuel k, load_table_writes writeOk endOk payload buf0 fuel k =
      (.diverge, buf0, k + fuel) := by
  intro fuel
  induction fuel with
  | zero => intro k; rfl
  | succ f ih =>
    intro k
    simp only [load_table_writes, (hall k).1, (hall k).2, Bool.false_eq_true,
      if_false, if_true, ih (k + 1)]
    rw [show k + 1 + f = k + (f + 1) by omega]

/-- **C2 (amended).** On an SDK table-write (`set_wavenumber_array`)
failure, `load_table` calls `end_acquisition` and retries the write —
not once but recursively, while writes keep failing and
`end_acquisition` keeps succeeding: after `n` such failed rounds, a
successful write returns normally with the raw buffer reallocated to the
SDK-reported payload size; an `end_acquisition` failure raises
`SpectroError` with the buffer untouched; and if every round fails the
recursion never terminates (Python `RecursionError`), rather than
raising `SpectroError` after one retry as the claim states. -/
theorem C2_load_table_retry (writeOk endOk : Nat → Bool)
    (payload buf0 fuel n : Nat) (hn : n < fuel)
    (hfail : ∀ j, j < n → writeOk j = false ∧ endOk j = true) :
    (writeOk n = true →
      load_table writeOk endOk payload buf0 fuel = (.ok, payload, n + 1)) ∧
    (writeOk n = false → endOk n = false →
      load_table writeOk endOk payload buf0 fuel =
        (.spectroErr, buf0, n + 1)) ∧
    ((∀ j, writeOk j = false ∧ endOk j = true) →
      load_table writeOk endOk payload buf0 fuel =
        (.diverge, buf0, fuel)) := by
  have h := load_table_writes_run writeOk endOk payload buf0 n fuel 0 hn
    (fun j hj => by simpa using hfail j hj)
  simp only [Nat.zero_add] at h
  refine ⟨fun hw => ?_, fun hw he => ?_, fun hall => ?_⟩
  · rw [load_table, h, if_pos hw]
  · rw [load_table, h, if_neg (by simp [hw]), if_neg (by simp [he])]
  · rw [load_table, load_table_writes_diverge writeOk endOk payload buf0
      hall fuel 0, Nat.zero_add]

/-- Witness for C2 (amended): a first write failure with a clean
`end_acquisition` followed by a successful retried write returns
normally with the buffer reallocated (7 → 100 bytes, 2 attempts); a
first write failure whose `end_acquisition` also fails raises
`SpectroError` with the buffer untouched. -/
theorem C2_load_table_retry_witness :
    load_table (fun k => decide (k = 1)) (fun _ => true) 100 7 10 =
      (.ok, 100, 2) ∧
    load_table (fun _ => false) (fun _ => false) 100 7 10 =
      (.spectroErr, 7, 1) :=
  ⟨(C2_load_table_retry (fun k => decide (k = 1)) (fun _ => true)
      100 7 10 1 (by omega)
      (fun j hj => by
        have hj0 : j = 0 := by omega
        subst hj0; exact ⟨rfl, rfl⟩)).1 rfl,
   (C2_load_table_retry (fun _ => false) (fun _ => false)
      100 7 10 0 (by omega)
      (fun j hj => absurd hj (by omega))).2.1 rfl rfl⟩

/-! ## Mozza.py: `MozzaSpectro._acquire_spectrum` (lines 175-199) -/

/-- Recomputation of the amplitude-correction multiplier array at the end
of `load_table` (Mozza.py lines 134-135):

```text
if self.correct_amplitude is not None:
    self.amp_correction = self.correct_amplitude(wnums)
```
`corrFn` is the installed correction function (interpolation over the
calibration columns), `wnums` the wavenumber table just programmed,
`old` the previous multiplier array. -/
def load_table_amp (corrFn : Option (List Int → List Int))
    (wnums : List Int) (old : Option (List Int)) : Option (List Int) :=
  match corrFn with
  | some f => some (f wnums)
  | none => old

/-- How a `_acquire_spectrum` call terminates.  `blocked` marks the call
blocking inside `load_table`'s `with self._lock:` while another thread
holds the lock (it does not return); `value spec beginCalled endCalled`
is a normal return carrying the returned spectrum (`none` for Python
`None`), whether `begin_acquisition` was invoked, and whether the
`finally` block invoked `end_acquisition`; `typeErr` is a raised
`TypeError` from evaluating `None * amp_correction` (it carries the same
two call-tracking flags). -/
inductive AcqResult
  | blocked
  | value (spec : Option (List Int)) (beginCalled endCalled : Bool)
  | typeErr (beginCalled endCalled : Bool)
deriving DecidableEq, Repr

/-- Whether the run recorded an `end_acquisition` attempt. -/
def acqEndCalled : AcqResult → Bool
  | .blocked => false
  | .value _ _ e => e
  | .typeErr _ e => e

/-- `MozzaSpectro._acquire_spectrum(background_mode)` (Mozza.py 175-199):

```text
spec = None
if self._acquisition != self.acquisition:
    self.load_table(...)                # blocking `with self._lock:`
if self._lock.acquire(False):
    try:
        self.device.begin_acquisition()
        raw = self.read_raw()
    except MozzaError as e:
        LOG.debug(...)
    else:
        spec = np.array(self.device.process_spectrum(raw))
    finally:
        try: self.device.end_acquisition()
        except MozzaError: pass
        self._lock.release()
else:
    return
return spec*self.amp_correction if self.apply_amp_correction else spec
```

Oracles and abstractions: `mismatch` is whether the requested window
differs from the programmed table (line 177); `lockBusy` whether another
thread holds the reentrant lock (so the non-blocking `acquire(False)`
fails, and a blocking acquire blocks); `rawData` is `some raw` when
`begin_acquisition` and `read_raw` both succeed and `none` when either
raises `MozzaError`; `endOk` is the `end_acquisition` oracle, whose
failure the bare `except MozzaError: pass` swallows (it affects
nothing); `processFn` is `process_spectrum`; the reprogramming
`load_table` call on the mismatch path is taken as succeeding (its own
failure modes are settled by `load_table` above).  When
`apply_amp_correction` is true and `spec` is `None` (failed acquisition)
or `amp_correction` is `None`, the final `spec*self.amp_correction`
multiplies `None` and raises `TypeError`. -/
def acquire_spectrum (mismatch lockBusy : Bool) (rawData : Option (List Int))
    (endOk : Bool) (apply_amp : Bool) (amp_correction : Option (List Int))
    (processFn : List Int → List Int) : AcqResult :=
  if mismatch ∧ lockBusy then .blocked
  else if lockBusy then .value none false false
  else
    let spec : Option (List Int) :=
      match rawData with
      | some raw => some (processFn raw)
      | none => none
    -- finally: end_acquisition attempted; `endOk = false` is swallowed
    -- by the bare `except MozzaError: pass`, touching nothing.
    let _ := endOk
    if apply_amp then
      match spec, amp_correction with
      | some sp, some a => .value (some (List.zipWith (· * ·) sp a)) true true
      | _, _ => .typeErr true true
    else .value spec true true

/-- **C4 counterexample.** A lock-acquired call on which
`begin_acquisition` (or the read) raises a `MozzaError` while
`apply_amp_correction` is true: `spec` stays `None`, the cleanup runs,
and the final line `spec*self.amp_correction if self.apply_amp_correction
else spec` evaluates `None * amp_correction` and raises `TypeError` —
the call does not return `None` without raising, as the claim states for
every lock-acquired invocation. -/
theorem C4_counterexample :
    acquire_spectrum false false none true true (some [2, 3])
      (fun l => l) = .typeErr true true := by rfl

/-- **C4 (amended).** For every lock-acquired invocation of
`_acquire_spectrum`: the `end_acquisition` cleanup is always attempted
before returning, and an error raised by `end_acquisition` itself is
swallowed (the result does not depend on the `end_acquisition` oracle).
When the SDK `begin_acquisition` or the raw read raises an SDK error,
the call returns `None` without raising provided
`apply_amp_correction` is false; with `apply_amp_correction` true the
final correction multiply on the `None` spectrum raises `TypeError`
instead. -/
theorem C4_acquire_spectrum_cleanup (mismatch : Bool)
    (rawData : Option (List Int)) (endOk endOk2 apply_amp : Bool)
    (amp : Option (List Int)) (f : List Int → List Int) :
    (acquire_spectrum mismatch false rawData endOk apply_amp amp f =
      acquire_spectrum mismatch false rawData endOk2 apply_amp amp f) ∧
    (acqEndCalled
      (acquire_spectrum mismatch false rawData endOk apply_amp amp f)
        = true) ∧
    (acquire_spectrum mismatch false none endOk false amp f =
      .value none true true) ∧
    (acquire_spectrum mismatch false none endOk true amp f =
      .typeErr true true) := by
  refine ⟨?_, ?_, ?_, ?_⟩ <;>
    cases mismatch <;>
    cases apply_amp <;>
    rcases rawData with _ | raw <;>
    rcases amp with _ | a <;>
    rfl

/-- **C5.** On a successful lock-acquired acquisition with
`apply_amp_correction = True`, the returned spectrum is the processed
raw spectrum multiplied elementwise by the `amp_correction` array; with
the flag false the processed spectrum is returned unchanged; and
`load_table` maintains `amp_correction` as the correction function
evaluated at the wavenumber table it has just programmed (whenever the
function exists). -/
theorem C5_amp_correction_applied (mismatch : Bool) (raw : List Int)
    (endOk : Bool) (a : List Int) (amp0 : Option (List Int))
    (f corrFn : List Int → List Int) (wnums : List Int)
    (old : Option (List Int)) :
    (acquire_spectrum mismatch false (some raw) endOk true (some a) f =
      .value (some (List.zipWith (· * ·) (f raw) a)) true true) ∧
    (acquire_spectrum mismatch false (some raw) endOk false amp0 f =
      .value (some (f raw)) true true) ∧
    (load_table_amp (some corrFn) wnums old = some (corrFn wnums)) := by
  refine ⟨?_, ?_, rfl⟩ <;> cases mismatch <;> rfl

/-- **C9 counterexample.** A call made while another thread holds the
lock AND the requested window differs from the programmed table: before
reaching the non-blocking `acquire(False)`, line 180 calls
`load_table`, whose `with self._lock:` is a *blocking* acquire — the
call blocks instead of returning `None` immediately. -/
theorem C9_counterexample :
    acquire_spectrum true true (some [1]) true false none
      (fun l => l) = .blocked := by rfl

/-- **C9 (amended).** When the programmed table already matches the
requested window, a `_acquire_spectrum` call made while another thread
holds the lock fails the non-blocking `acquire(False)` and returns
`None` immediately — without blocking, without calling
`begin_acquisition` (or `end_acquisition`), and without raising.  If the
window differs, the call instead blocks in `load_table`'s blocking lock
acquisition (the counterexample above). -/
theorem C9_drop_if_busy (rawData : Option (List Int))
    (endOk apply_amp : Bool) (amp : Option (List Int))
    (f : List Int → List Int) :
    acquire_spectrum false true rawData endOk apply_amp amp f =
      .value none false false := by rfl

/-! ## Mozza.py: `MozzaSpectro.read_raw` (lines 137-160) -/

/-- How a `read_raw` call terminates: `single` is exactly one blocking
`device.read_raw()` call; `timeout` a raised `TriggerTimeoutError`;
`chunked reads total` the chunked path with its number of bounded
`device.read_raw(N)` calls and total bytes accumulated; `stuck` marks
exhausted fuel (the `while` loop still running). -/
inductive ReadOutcome
  | single
  | timeout
  | chunked (reads total : Nat)
  | stuck
deriving DecidableEq, Repr

/-- The chunk-read `while` loop (Mozza.py lines 145-153):

```text
last = 0
lp = self.device.table_length
while last < self.buffer.size:
    N = min(npts, lp)
    raw = self.device.read_raw(N)
    self.buffer[last:last+len(raw)] = raw[0:len(raw)]
    last += len(raw)
    lp -= npts
```
`readLen idx N` is the byte count `len(raw)` the SDK returns for the
`idx`-th chunked `read_raw(N)` call (the buffer's contents are not
modelled — no claim mentions them, only the read pattern and byte
counts).  Returns `(reads, total)` on loop exit, `none` on exhausted
fuel. -/
def read_chunks (readLen : Nat → Int → Nat) (bufSize : Nat) (npts : Int) :
    Nat → Nat → Int → Nat → Option (Nat × Nat)
  | 0, last, _, idx =>
    if bufSize ≤ last then some (idx, last) else none
  | fuel + 1, last, lp, idx =>
    if bufSize ≤ last then some (idx, last)
    else
      let N : Int := min npts lp
      let raw := readLen idx N
      read_chunks readLen bufSize npts fuel (last + raw) (lp - npts)
        (idx + 1)

/-- `MozzaSpectro.read_raw()` (Mozza.py lines 137-160):

```text
if trigger_source == EXTERNAL:
    trigger_freq = float(self.device.get_trigger_frequency())
    if trigger_freq == 0: raise TriggerTimeoutError
    acq_time = self.buffer.size/trigger_freq/64
    if acq_time > 1:
        lp = self.device.table_length
        npts = int(round(trigger_freq/self.buffer.size*self.device.table_length*64 - 1))
        ... chunk loop ...
    else:
        return self.device.read_raw()
else:
    return self.device.read_raw()
```
Float arithmetic is modelled over `ℚ`; Python's `int(round(x))`
(round-half-to-even) is modelled as `⌊x + 1/2⌋` — the two differ only on
exact `.5` ties, which no claim depends on. -/
def read_raw (external : Bool) (trigger_freq : ℚ)
    (bufSize tableLength : Nat) (readLen : Nat → Int → Nat)
    (fuel : Nat) : ReadOutcome :=
  if external then
    if trigger_freq = 0 then .timeout
    else
      let acq_time : ℚ := (bufSize : ℚ) / trigger_freq / 64
      if 1 < acq_time then
        let npts : Int :=
          ⌊trigger_freq / (bufSize : ℚ) * (tableLength : ℚ) * 64 - 1
            + 1/2⌋
        match read_chunks readLen bufSize npts fuel 0 (tableLength : Int)
            0 with
        | some (reads, total) => .chunked reads total
        | none => .stuck
      else .single
  else .single

/-- Helper for C7: when every chunk read returns at least one byte, the
loop exits with at least `bufSize` bytes accumulated, given fuel for the
worst case of one byte per read. -/
theorem read_chunks_total (readLen : Nat → Int → Nat) (bufSize : Nat)
    (npts : Int) (hpos : ∀ i N, 1 ≤ readLen i N) :
    ∀ fuel last lp idx, bufSize ≤ last + fuel →
      ∃ reads total,
        read_chunks readLen bufSize npts fuel last lp idx =
          some (reads, total) ∧ bufSize ≤ total := by
  intro fuel
  induction fuel with
  | zero =>
    intro last lp idx h
    rw [Nat.add_zero] at h
    exact ⟨idx, last, by simp [read_chunks, h], h⟩
  | succ f ih =>
    intro last lp idx h
    by_cases hb : bufSize ≤ last
    · exact ⟨idx, last, by simp [read_chunks, hb], hb⟩
    · have h2 : bufSize ≤ (last + readLen idx (min npts lp)) + f := by
        have := hpos idx (min npts lp)
        omega
      obtain ⟨r, t, heq, hle⟩ :=
        ih (last + readLen idx (min npts lp)) (lp - npts) (idx + 1) h2
      refine ⟨r, t, ?_, hle⟩
      simp only [read_chunks, hb, if_false]
      exact heq

/-- **C7.** `read_raw`: with internal trigger, exactly one blocking SDK
read.  With external trigger it queries the trigger frequency and raises
`TriggerTimeoutError` when it is zero; when the estimated acquisition
time `buffer_size / frequency / 64` exceeds 1 second it fills the buffer
by repeated bounded chunk reads (chunk point count derived from
frequency, buffer size, and table length) until `buffer_size` bytes are
read; otherwise it performs exactly one blocking read. -/
theorem C7_read_raw_modes (external : Bool) (freq : ℚ)
    (bufSize tableLength : Nat) (readLen : Nat → Int → Nat)
    (fuel : Nat) :
    (external = false →
      read_raw external freq bufSize tableLength readLen fuel = .single) ∧
    (freq = 0 →
      read_raw true freq bufSize tableLength readLen fuel = .timeout) ∧
    (freq ≠ 0 → ¬ (1 < (bufSize : ℚ) / freq / 64) →
      read_raw true freq bufSize tableLength readLen fuel = .single) ∧
    (freq ≠ 0 → 1 < (bufSize : ℚ) / freq / 64 →
      (∀ i N, 1 ≤ readLen i N) → bufSize ≤ fuel →
      ∃ reads total,
        read_raw true freq bufSize tableLength readLen fuel =
          .chunked reads total ∧ bufSize ≤ total) := by
  refine ⟨fun h => ?_, fun h => ?_, fun h1 h2 => ?_, fun h1 h2 hpos hf => ?_⟩
  · subst h; rfl
  · simp [read_raw, h]
  · simp [read_raw, h1, h2]
  · obtain ⟨r, t, heq, hle⟩ :=
      read_chunks_total readLen bufSize
        ⌊freq / (bufSize : ℚ) * (tableLength : ℚ) * 64 - 1 + 1/2⌋ hpos
        fuel 0 (tableLength : Int) 0 (by omega)
    rw [show ((1 : ℚ) / 2) = (2⁻¹ : ℚ) by norm_num] at heq
    exact ⟨r, t, by simp [read_raw, h1, h2, heq], hle⟩

/-- Witness for C7 at concrete inputs: internal trigger reads once;
zero external frequency is a timeout; external at 2 triggers/s with a
100-byte buffer (estimated time 100/2/64 < 1 s) reads once; external at
1 trigger/s with a 130-byte buffer (estimated time 130/64 > 1 s) runs
the chunk loop to at least 130 bytes. -/
theorem C7_read_raw_modes_witness :
    read_raw false 5 100 10 (fun _ _ => 1) 100 = .single ∧
    read_raw true 0 100 10 (fun _ _ => 1) 100 = .timeout ∧
    read_raw true 2 100 10 (fun _ _ => 1) 100 = .single ∧
    (∃ reads total,
      read_raw true 1 130 10 (fun _ _ => 65) 130 =
        .chunked reads total ∧ 130 ≤ total) :=
  ⟨(C7_read_raw_modes false 5 100 10 (fun _ _ => 1) 100).1 rfl,
   (C7_read_raw_modes true 0 100 10 (fun _ _ => 1) 100).2.1 rfl,
   (C7_read_raw_modes true 2 100 10 (fun _ _ => 1) 100).2.2.1
     (by norm_num) (by norm_num),
   (C7_read_raw_modes true 1 130 10 (fun _ _ => 65) 130).2.2.2
     (by norm_num) (by norm_num) (fun i N => by norm_num) (by norm_num)⟩
